import Mathlib

/- Shallow embedding of the entity-resolution and record-merging layer of the
MappingGlobalChinaMQP pipeline: the subsidiary master merge
(scripts/08b_subsidiaries_master_merge.py), the parents master merge
(scripts/08a_parents_master_merge.py), the charter address-line classifier
(scripts/07_parse_ex3_charters.py) and the QC auditor
(scripts/09_qc_and_reports.py).

Modelling conventions: Python strings are Lean `String`s processed on their
underlying `List Char`; Python `None` / pandas `NaN` cells are `Option`;
Python floats are exact rationals `ℚ`; character handling is ASCII-faithful
(the inputs relevant to the specification are ASCII apart from one fixed
encoding artifact handled verbatim). -/

namespace MGCC

/-- The ASCII whitespace class of Python's `str.strip()` and of `\s` in the
regexes used by the scripts: space, tab, newline, carriage return, vertical
tab, form feed. -/
def isPySpace (c : Char) : Bool :=
  c == ' ' || c == '\t' || c == '\n' || c == '\r' ||
    c == Char.ofNat 11 || c == Char.ofNat 12

/-- Python `str.strip()` on a character list. -/
def pyStrip (l : List Char) : List Char :=
  ((l.dropWhile isPySpace).reverse.dropWhile isPySpace).reverse

/-- Python `str.strip()` on a string. -/
def pyStripStr (s : String) : String := ⟨pyStrip s.data⟩

/-- ASCII lowercasing of one character (Python `str.lower` on ASCII input). -/
def lowerChar (c : Char) : Char :=
  if 'A' ≤ c && c ≤ 'Z' then Char.ofNat (c.toNat + 32) else c

/-- ASCII lowercasing of a character list. -/
def lowerL (l : List Char) : List Char := l.map lowerChar

/-- `pat` is a character-exact prefix of `t`. -/
def startsWithL : List Char → List Char → Bool
  | [], _ => true
  | _ :: _, [] => false
  | p :: ps, c :: cs => p == c && startsWithL ps cs

/-- Python's substring test `pat in t`. -/
def containsL (t pat : List Char) : Bool :=
  startsWithL pat t ||
    (match t with
     | [] => false
     | _ :: rest => containsL rest pat)

/-- `re.sub(r"\s+", " ", t)`: every maximal whitespace run becomes one space.
The flag records whether the previous character was inside a whitespace run. -/
def wsCollapse : Bool → List Char → List Char
  | _, [] => []
  | inRun, c :: rest =>
    if isPySpace c then
      if inRun then wsCollapse true rest else ' ' :: wsCollapse true rest
    else c :: wsCollapse false rest

/-- A regex word character `\w` (ASCII): letter, digit or underscore. -/
def isWordChar (c : Char) : Bool := c.isAlpha || c.isDigit || c == '_'

/-- The apostrophe character, kept by the jurisdiction cleaning filter. -/
def apost : Char := Char.ofNat 39

/-- A one-character apostrophe string. -/
def apostS : String := ⟨[apost]⟩

/-- `j.replace("â€™", "'")`, the fixed-pattern `str.replace` of the encoding
artifact: all non-overlapping occurrences of the three-character sequence are
replaced by an apostrophe, scanning left to right. -/
def replaceEnc : List Char → List Char
  | [] => []
  | 'â' :: '€' :: '™' :: rest => apost :: replaceEnc rest
  | c :: rest => c :: replaceEnc rest

/-- Case-insensitive (ASCII) prefix test. -/
def startsWithCI (pat t : List Char) : Bool := startsWithL (lowerL pat) (lowerL t)

/-- The literal `jurisdiction` of the boilerplate regex. -/
def jurWord : List Char := "jurisdiction".data

/-- The literal `organization` of the boilerplate regex. -/
def orgWord : List Char := "organization".data

/-- A case-insensitive occurrence of `organization` anchored at the head of
`t`: on success, the remainder of `t` after it. -/
def orgHere (t : List Char) : Option (List Char) :=
  if startsWithCI orgWord t then some (t.drop orgWord.length) else none

theorem orgHere_length_le : ∀ t r, orgHere t = some r → r.length ≤ t.length := by
  intro t r h
  unfold orgHere at h
  split at h
  · cases h
    simp [List.length_drop]
  · cases h

/-- Remainder of `t` after `.*Organization` is matched greedily,
case-insensitively (`.*` may not cross a newline); `none` when no occurrence
of `organization` is reachable.  This is the greedy tail of one match of
`re.sub(r"Jurisdiction.*Organization", "", j, flags=re.I)`. -/
def greedyOrgTail : List Char → Option (List Char)
  | [] => none
  | c :: rest =>
    match (if c == '\n' then none else greedyOrgTail rest) with
    | some r => some r
    | none => orgHere (c :: rest)

theorem greedyOrgTail_length_le :
    ∀ t r, greedyOrgTail t = some r → r.length ≤ t.length := by
  intro t
  induction t with
  | nil => intro r h; simp [greedyOrgTail] at h
  | cons c rest ih =>
    intro r h
    by_cases hc : (c == '\n') = true
    · simp only [greedyOrgTail, if_pos hc] at h
      exact orgHere_length_le _ _ h
    · simp only [greedyOrgTail, if_neg hc] at h
      cases hg : greedyOrgTail rest with
      | none =>
          simp only [hg] at h
          exact orgHere_length_le _ _ h
      | some rr =>
          simp only [hg, Option.some.injEq] at h
          have h2 := ih rr hg
          rw [← h]
          simp only [List.length_cons]
          omega

/-- The fuel-indexed scan of `re.sub(r"Jurisdiction.*Organization", "", t,
flags=re.I)`: every non-overlapping match (leftmost start, greedy extent) is
removed.  Each recursive call strictly shortens the text (a match spans at
least the word `jurisdiction`, see `greedyOrgTail_length_le`), so fuel equal
to the text's length makes the fuel-exhausted case unreachable; fuel keeps
the recursion structural. -/
def subJurOrgF : Nat → List Char → List Char
  | 0, t => t
  | _ + 1, [] => []
  | fuel + 1, c :: rest =>
    if startsWithCI jurWord (c :: rest) then
      match greedyOrgTail ((c :: rest).drop jurWord.length) with
      | some r => subJurOrgF fuel r
      | none => c :: subJurOrgF fuel rest
    else c :: subJurOrgF fuel rest

/-- `re.sub(r"Jurisdiction.*Organization", "", t, flags=re.I)`. -/
def subJurOrg (t : List Char) : List Char := subJurOrgF t.length t

/-- The character class kept by `re.sub(r"[^A-Za-z' ]", "", j)`. -/
def keepChar (c : Char) : Bool :=
  ('A' ≤ c && c ≤ 'Z') || ('a' ≤ c && c ≤ 'z') || c == apost || c == ' '

/-- The cleaning stage of `normalize_jurisdiction`: strip, fix the fixed
encoding artifact, remove `Jurisdiction.*Organization` boilerplate, strip,
remove every character outside `[A-Za-z' ]`, strip. -/
def cleanJur (s : String) : String :=
  let j1 := pyStrip s.data
  let j2 := replaceEnc j1
  let j3 := pyStrip (subJurOrg j2)
  ⟨pyStrip (j3.filter keepChar)⟩

/-- The alias table `mapping` of `normalize_jurisdiction`, in source order. -/
def aliasTable : List (String × String) :=
  [ ("PRC", "China"),
    ("People" ++ apostS ++ "s Republic of China", "China"),
    ("Peoples Republic of China", "China"),
    ("China", "China"),
    ("Mainland China", "China"),
    ("Taiwan", "Taiwan"),
    ("HK", "Hong Kong"),
    ("Hongkong", "Hong Kong"),
    ("Hong Kong", "Hong Kong"),
    ("Macau", "Macau"),
    ("Macao", "Macau"),
    ("SGP", "Singapore"),
    ("Singapore", "Singapore"),
    ("BVI", "British Virgin Islands"),
    ("British Virgin Islands", "British Virgin Islands"),
    ("Cayman", "Cayman Islands"),
    ("Cayman Islands", "Cayman Islands"),
    ("US", "United States"),
    ("U.S.", "United States"),
    ("USA", "United States"),
    ("United States", "United States"),
    ("The United States", "United States"),
    ("California", "United States"),
    ("Delaware", "United States"),
    ("Delware", "United States"),
    ("Nevada", "United States"),
    ("Missouri", "United States"),
    ("Kansas", "United States"),
    ("UK", "United Kingdom"),
    ("United Kingdom", "United Kingdom"),
    ("India", "India"),
    ("Japan", "Japan"),
    ("Malaysia", "Malaysia"),
    ("Australia", "Australia"),
    ("Dubai", "United Arab Emirates"),
    ("UAE", "United Arab Emirates") ]

/-- The `JURIS_ISO3_MAP` table of `normalize_jurisdiction`, in source order. -/
def iso3Table : List (String × String) :=
  [ ("China", "CHN"),
    ("Hong Kong", "HKG"),
    ("Macau", "MAC"),
    ("Singapore", "SGP"),
    ("British Virgin Islands", "VGB"),
    ("Cayman Islands", "CYM"),
    ("United States", "USA"),
    ("United Kingdom", "GBR"),
    ("India", "IND"),
    ("Japan", "JPN"),
    ("Malaysia", "MYS"),
    ("Australia", "AUS"),
    ("United Arab Emirates", "ARE"),
    ("Taiwan", "TWN"),
    ("Philippines", "PHL"),
    ("Canada", "CAN"),
    ("Belgium", "BEL") ]

/-- `normalize_jurisdiction(j)` of 08b: `None`/blank input yields `("", None)`;
otherwise the cleaned string is mapped through the alias table (defaulting to
itself) and then looked up in the ISO3 table.  The function is total: it
cannot raise. -/
def normalize_jurisdiction : Option String → String × Option String
  | none => ("", none)
  | some s =>
    if pyStrip s.data = [] then ("", none)
    else
      let c := cleanJur s
      let n := (List.lookup c aliasTable).getD c
      (n, List.lookup n iso3Table)

/-- `normalize_sub_name(name)` of 08b: `NaN` becomes `""`; otherwise the name
is stripped and internal whitespace runs are collapsed to single spaces. -/
def normalize_sub_name : Option String → String
  | none => ""
  | some s => ⟨wsCollapse false (pyStrip s.data)⟩

/-- Numeric value of a run of decimal digits. -/
def natOfDigits (ds : List Char) : Nat := ds.foldl (fun a c => 10 * a + (c.toNat - 48)) 0

/-- A decimal numeral as matched by `(\d+(?:\.\d+)?)`: integer part, fraction
digits value, and fraction digit count. -/
structure Numeral where
  intPart : Nat
  fracPart : Nat
  fracLen : Nat
deriving DecidableEq

/-- The exact value of `float(group)` on a matched numeral. -/
def numeralVal (n : Numeral) : ℚ := n.intPart + n.fracPart / 10 ^ n.fracLen

/-- Match `\d+(?:\.\d+)?` at the head of `t` (maximal munch, which agrees with
the regex's greedy backtracking here because a shorter number can never make
the following `\s*%` / `\s*percent\b` succeed where the longer one failed);
returns the numeral and the rest of the input. -/
def matchNumber (t : List Char) : Option (Numeral × List Char) :=
  let p := t.span Char.isDigit
  if p.1.isEmpty then none
  else
    match p.2 with
    | '.' :: r2 =>
      let q := r2.span Char.isDigit
      if q.1.isEmpty then some (⟨natOfDigits p.1, 0, 0⟩, p.2)
      else some (⟨natOfDigits p.1, natOfDigits q.1, q.1.length⟩, q.2)
    | _ => some (⟨natOfDigits p.1, 0, 0⟩, p.2)

/-- The literal `percent` of the ownership regex. -/
def percentWord : List Char := "percent".data

/-- First alternative `(\d+(?:\.\d+)?)\s*%` of the ownership regex, anchored
at the head of `t`. -/
def branchPct (t : List Char) : Option Numeral :=
  match matchNumber t with
  | none => none
  | some (v, r) =>
    match r.dropWhile isPySpace with
    | '%' :: _ => some v
    | _ => none

/-- Second alternative `\b(\d+(?:\.\d+)?)\s*percent\b` of the ownership regex,
anchored at the head of `t`; `prevWord` tells whether the character before `t`
is a word character (the left `\b` fails exactly when it is, since a digit is
a word character). -/
def branchPercentWord (prevWord : Bool) (t : List Char) : Option Numeral :=
  if prevWord then none
  else
    match matchNumber t with
    | none => none
    | some (v, r) =>
      let r2 := r.dropWhile isPySpace
      if startsWithL percentWord r2 then
        match r2.drop percentWord.length with
        | [] => some v
        | c :: _ => if isWordChar c then none else some v
      else none

/-- `re.search(r"(\d+(?:\.\d+)?)\s*%|\b(\d+(?:\.\d+)?)\s*percent\b", t)`:
positions are tried left to right and, at each position, the percent-sign
alternative before the percent-word alternative; the value of the first match
is returned. -/
def searchPct : Bool → List Char → Option Numeral
  | _, [] => none
  | prevW, c :: rest =>
    match branchPct (c :: rest) with
    | some v => some v
    | none =>
      match branchPercentWord prevW (c :: rest) with
      | some v => some v
      | none => searchPct (isWordChar c) rest

/-- The `"wholly" in text or "wholly-owned" in text` cue of
`extract_ownership_from_text`. -/
def whollyCue (t : List Char) : Bool :=
  containsL t "wholly".data || containsL t "wholly-owned".data

/-- `extract_ownership_from_text(text)` of 08b: `NaN` yields `None`; otherwise
the lowercased text is searched for a numeric percentage; failing that, the
wholly-owned cue yields `100.0`; otherwise `None`. -/
def extract_ownership_from_text : Option String → Option ℚ
  | none => none
  | some s =>
    match searchPct false (lowerL s.data) with
    | some n => some (numeralVal n)
    | none => if whollyCue (lowerL s.data) then some 100 else none

/-- `make_uuid(parent_cik10, sub_name_norm, jurisdiction_norm)` of 08b.
`uuid.uuid5(uuid.NAMESPACE_DNS, base_str)` is a pure function of its name
string (an RFC 4122 SHA-1 name-based UUID with a fixed namespace); it is
modelled by an arbitrary function `uuid5dns` from the name string to the
rendered UUID string, so theorems quantifying over `uuid5dns` hold in
particular for the real hash.  The Python `jurisdiction_norm or ''` is the
identity on the strings produced by `normalize_jurisdiction` (which never
yields `None` and maps blanks to `""`). -/
def make_uuid (uuid5dns : String → String)
    (parent_cik10 sub_name_norm jurisdiction_norm : String) : String :=
  uuid5dns (parent_cik10 ++ "|" ++ sub_name_norm ++ "|" ++ jurisdiction_norm)

/-- One row of the raw `subs_ex21_raw_*.csv` input of 08b (the columns the
script reads). -/
structure RawSubRow where
  parent_ticker : String
  parent_cik10 : String
  subsidiary_name_raw : Option String
  jurisdiction_raw : Option String
  ownership_raw : Option String
  exhibit_year : Int
  accession : String
  exhibit_label : String
  source_path : String

/-- One row of the `subs_master_*.csv` output of 08b (the `final_cols`
selection plus the merge keys). -/
structure SubMasterRow where
  sub_uuid : String
  parent_ticker : String
  parent_cik10 : String
  subsidiary_name : String
  jurisdiction_iso3 : Option String
  ownership_pct : Option ℚ
  first_seen_year : Int
  last_seen_year : Int
  accession : String
  exhibit_label : String
  parse_confidence : ℚ
  lineage : String
deriving DecidableEq

/-- The per-row derivation of 08b's main section: normalized name and
jurisdiction, ownership extraction, `sub_uuid` derivation, the constant parse
confidence `1.0`, lineage, and `first_seen_year = last_seen_year =
exhibit_year`. -/
def buildSubRow (uuid5dns : String → String) (r : RawSubRow) : SubMasterRow :=
  let nm := normalize_sub_name r.subsidiary_name_raw
  let nj := normalize_jurisdiction r.jurisdiction_raw
  { sub_uuid := make_uuid uuid5dns r.parent_cik10 nm nj.1
    parent_ticker := r.parent_ticker
    parent_cik10 := r.parent_cik10
    subsidiary_name := nm
    jurisdiction_iso3 := nj.2
    ownership_pct := extract_ownership_from_text r.ownership_raw
    first_seen_year := r.exhibit_year
    last_seen_year := r.exhibit_year
    accession := r.accession
    exhibit_label := r.exhibit_label
    parse_confidence := 1
    lineage := r.source_path }

/-- `df.drop_duplicates(subset=["parent_cik10", "sub_uuid"])`: keep the first
row for each key, scanning in order; `seen` accumulates the keys already kept. -/
def dropDupByKey : List (String × String) → List SubMasterRow → List SubMasterRow
  | _, [] => []
  | seen, r :: rs =>
    if (r.parent_cik10, r.sub_uuid) ∈ seen then dropDupByKey seen rs
    else r :: dropDupByKey ((r.parent_cik10, r.sub_uuid) :: seen) rs

/-- The whole 08b merge on an in-memory list of raw rows: derive each master
row, then deduplicate on `(parent_cik10, sub_uuid)` keeping first occurrences. -/
def subsMaster (uuid5dns : String → String) (rows : List RawSubRow) : List SubMasterRow :=
  dropDupByKey [] (rows.map (buildSubRow uuid5dns))

/-! ### 08a parents master merge -/

/-- `has_value(val)` of 08a on an optional string cell: present, not `NaN`,
and non-blank after strip (`None` and `NaN` are both modelled as `none`). -/
def hasValue (v : Option String) : Bool :=
  match v with
  | none => false
  | some s => !(pyStrip s.data).isEmpty

/-- `has_value` on an optional numeric cell: a present number is never blank. -/
def hasValueInt (v : Option Int) : Bool := v.isSome

/-- Python `str(x)` / pandas `astype(str)` on an optional cell: a missing
(`NaN`) value renders as the string `"nan"`. -/
def strOfCell (v : Option String) : String :=
  match v with
  | none => "nan"
  | some s => s

/-- One row of the EX-21 index (`subs_ex21_raw_*.csv`) as 08a reads it; its
`parent_ticker`/`parent_cik10` were passed through `astype(str).str.strip()`. -/
structure Ex21Row where
  parent_ticker : String
  parent_cik10 : String
  exhibit_year : Option Int
  accession : Option String
  source_path : Option String

/-- The environment of one 08a run: the chosen input files plus the lookup
and filesystem state the build loop consults.  `submissionsName` and
`submissionsState` give the result of `get_name_from_submissions` /
`get_state_from_submissions` for a ticker — a stripped non-blank value, or
`none` when the file is missing, unreadable, or the field blank;
`submissionsFileExists` is the bare `os.path.exists` test of the
no-ticker-no-cik branch; `usccLookup` is the `uscc_lookup` dict.  (On a `NaN`
ticker the Python code would raise `TypeError` inside `os.path.join`; the
wrappers below key the lookups by the ticker cell, a `NaN` ticker looking
nothing up.) -/
structure MergeEnv where
  deiFile : String
  cikFile : String
  usccFile : String
  usccLookup : String → Option String
  submissionsName : String → Option String
  submissionsState : String → Option String
  submissionsFileExists : String → Bool
  ex21 : List Ex21Row

/-- `uscc_lookup.get(parent_ticker)` on an optional ticker cell. -/
def usccGet (env : MergeEnv) (t : Option String) : Option String :=
  match t with
  | none => none
  | some s => env.usccLookup s

/-- `parent_ticker in uscc_lookup` on an optional ticker cell. -/
def usccMem (env : MergeEnv) (t : Option String) : Bool := (usccGet env t).isSome

/-- `get_name_from_submissions(parent_ticker)` on an optional ticker cell. -/
def subNameOf (env : MergeEnv) (t : Option String) : Option String :=
  match t with
  | none => none
  | some s => env.submissionsName s

/-- `get_state_from_submissions(parent_ticker)` on an optional ticker cell. -/
def subStateOf (env : MergeEnv) (t : Option String) : Option String :=
  match t with
  | none => none
  | some s => env.submissionsState s

/-- `os.path.exists(submissions_path)` on an optional ticker cell. -/
def subFileExists (env : MergeEnv) (t : Option String) : Bool :=
  match t with
  | none => false
  | some s => env.submissionsFileExists s

/-- `os.path.join(EDGAR_DIR, ticker, "submissions.json")`. -/
def submissionsPathOf (t : Option String) : String :=
  "data/raw/EDGAR/" ++ strOfCell t ++ "/submissions.json"

/-- One row of `merged_df` (DEI facts left-joined with the CIK map) as the
08a build loop reads it. -/
structure ParentRow where
  parent_ticker : Option String
  parent_cik10 : Option String
  registrant_name : Option String
  incorp_state_raw : Option String
  legal_form : Option String

/-- The `lineage` dict, modelled by its lookup function (insertion order is
not observed by any claim). -/
def Lineage := String → Option String

/-- `lineage[k] = v`. -/
def lineageSet (l : Lineage) (k v : String) : Lineage :=
  fun q => if q = k then some v else l q

/-- The empty `lineage` dict. -/
def emptyLineage : Lineage := fun _ => none

/-- The name-source branch of 08a's build loop: the resolved `parent_name`,
the source tags this branch appends, and the lineage entries it sets.  When no
source supplies a name, `parent_name` keeps the row's (blank or missing)
`registrant_name`. -/
def nameResolve (env : MergeEnv) (row : ParentRow) :
    Option String × List String × List (String × String) :=
  if hasValue row.registrant_name then
    (row.registrant_name, ["DEI"], [("dei_path", env.deiFile)])
  else if hasValue (subNameOf env row.parent_ticker) then
    (subNameOf env row.parent_ticker, ["submissions"],
      [("submissions_path", submissionsPathOf row.parent_ticker)])
  else if hasValue (usccGet env row.parent_ticker) then
    (usccGet env row.parent_ticker, ["USCC"], [("uscc_path", env.usccFile)])
  else (row.registrant_name, [], [])

/-- `if cond and tag not in sources_used: sources_used.append(tag);
lineage[k] = v`. -/
def tagStep (cond : Bool) (tag k v : String) :
    List String × Lineage → List String × Lineage :=
  fun sl =>
    if cond && !(sl.1.contains tag) then (sl.1 ++ [tag], lineageSet sl.2 k v)
    else sl

/-- The `ex_rows` selection: EX-21 index rows whose ticker or CIK matches the
parent after `str(...)` rendering. -/
def ex21Matches (env : MergeEnv) (row : ParentRow) : List Ex21Row :=
  env.ex21.filter (fun e =>
    e.parent_ticker == strOfCell row.parent_ticker ||
      e.parent_cik10 == strOfCell row.parent_cik10)

/-- Does `e` sort strictly after `best` under
`sort_values("exhibit_year", ascending=False)` (missing years last)? -/
def yearAfter (e best : Ex21Row) : Bool :=
  match e.exhibit_year, best.exhibit_year with
  | some a, some b => decide (b < a)
  | some _, none => true
  | none, _ => false

/-- `.sort_values("exhibit_year", ascending=False).iloc[0]`: a row with
maximal exhibit year, missing years sorting last; among equal keys pandas
leaves the winner unspecified, modelled as the first encountered. -/
def pickLatest : Ex21Row → List Ex21Row → Ex21Row
  | best, [] => best
  | best, e :: rest => pickLatest (if yearAfter e best then e else best) rest

/-- One record appended to `records` by the 08a build loop (its
`sources_used` kept as the list that `"|".join` is applied to). -/
structure ParentRec where
  parent_ticker : Option String
  parent_cik10 : Option String
  parent_name : Option String
  incorp_country_iso3 : String
  incorp_state_or_region : Option String
  legal_form : Option String
  latest_20f_year : Option Int
  latest_20f_accession : Option String
  sources_used : List String
  lineage : Lineage

/-- Python `"|".join`. -/
def joinBar : List String → String
  | [] => ""
  | [s] => s
  | s :: rest => s ++ "|" ++ joinBar rest

/-- The `sources_used` CSV cell of a record: `"|".join(sources_used)`. -/
def sourcesUsedCell (r : ParentRec) : String := joinBar r.sources_used

/-- The `sources_used`/`lineage` state right after the name branch. -/
def slName (env : MergeEnv) (row : ParentRow) : List String × Lineage :=
  ((nameResolve env row).2.1,
    (nameResolve env row).2.2.foldl (fun l p => lineageSet l p.1 p.2) emptyLineage)

/-- State after `if has_value(parent_ticker) and "DEI" not in sources_used`. -/
def slDei (env : MergeEnv) (row : ParentRow) : List String × Lineage :=
  tagStep (hasValue row.parent_ticker) "DEI" "dei_path" env.deiFile (slName env row)

/-- State after `if has_value(parent_cik10) and "CIK" not in sources_used`. -/
def slCik (env : MergeEnv) (row : ParentRow) : List String × Lineage :=
  tagStep (hasValue row.parent_cik10) "CIK" "cik_path" env.cikFile (slDei env row)

/-- State after the USCC membership block (blank ticker found in the USCC
lookup). -/
def slUscc (env : MergeEnv) (row : ParentRow) : List String × Lineage :=
  tagStep (!(hasValue row.parent_ticker) && usccMem env row.parent_ticker)
    "USCC" "uscc_path" env.usccFile (slCik env row)

/-- The `sources_used`/`lineage` state after the ticker/CIK/USCC/submissions
source contributions (the four `if` blocks following the name branch). -/
def slTicker (env : MergeEnv) (row : ParentRow) : List String × Lineage :=
  tagStep
    (!(hasValue row.parent_ticker) && !(hasValue row.parent_cik10) &&
      subFileExists env row.parent_ticker)
    "submissions" "submissions_path" (submissionsPathOf row.parent_ticker)
    (slUscc env row)

/-- The state-fill step: when the row's incorporation state is blank and the
submissions file supplies one, the state is replaced, the `submissions` tag
appended if absent, and the lineage entry set. -/
def stateFill (env : MergeEnv) (row : ParentRow) :
    Option String × (List String × Lineage) :=
  if !(hasValue row.incorp_state_raw) &&
      hasValue (subStateOf env row.parent_ticker) then
    (subStateOf env row.parent_ticker,
      ((if (slTicker env row).1.contains "submissions" then (slTicker env row).1
        else (slTicker env row).1 ++ ["submissions"]),
        lineageSet (slTicker env row).2 "submissions_path"
          (submissionsPathOf row.parent_ticker)))
  else (row.incorp_state_raw, slTicker env row)

/-- The EX-21 step: the latest matching exhibit row's year and accession, and
when either has a value the `EX-21` tag is appended if absent and the lineage
entry set. -/
def ex21Step (env : MergeEnv) (row : ParentRow) :
    Option Int × Option String × (List String × Lineage) :=
  match ex21Matches env row with
  | [] => (none, none, (stateFill env row).2)
  | e :: es =>
    let latest := pickLatest e es
    if hasValueInt latest.exhibit_year || hasValue latest.accession then
      (latest.exhibit_year, latest.accession,
        ((if (stateFill env row).2.1.contains "EX-21" then (stateFill env row).2.1
          else (stateFill env row).2.1 ++ ["EX-21"]),
          lineageSet (stateFill env row).2.2 "ex21_path" (strOfCell latest.source_path)))
    else (latest.exhibit_year, latest.accession, (stateFill env row).2)

/-- One iteration of 08a's build loop, lines 121-219 of
`08a_parents_master_merge.py`: the name waterfall, the ticker/CIK/USCC/
submissions source tags, the constant `incorp_country_iso3 = ''`, the
incorporation-state fallback, and the latest EX-21 year/accession. -/
def buildRecord (env : MergeEnv) (row : ParentRow) : ParentRec :=
  { parent_ticker := row.parent_ticker
    parent_cik10 := row.parent_cik10
    parent_name := (nameResolve env row).1
    incorp_country_iso3 := ""
    incorp_state_or_region := (stateFill env row).1
    legal_form := row.legal_form
    latest_20f_year := (ex21Step env row).1
    latest_20f_accession := (ex21Step env row).2.1
    sources_used := (ex21Step env row).2.2.1
    lineage := (ex21Step env row).2.2.2 }

/-- The whole 08a build loop over `merged_df`. -/
def parentsMaster (env : MergeEnv) (rows : List ParentRow) : List ParentRec :=
  rows.map (buildRecord env)

/-! ### 07 charter address-line classifier -/

/-- The legal/company exclusion keywords of `potential_address`, in source
order. -/
def exclusionsList : List String :=
  [ "identity card", "cik", "ticker", "prc identity", "prc id",
    "section", "act", "agreement", "party",
    "shareholder", "company", "director", "member",
    "notice", "hereby", "therefore", "shall", "exhibit" ]

/-- The street keywords of `potential_address`. -/
def streetKeywords : List String :=
  [ "street", "st.", "road", "rd.", "avenue", "ave", "lane", "ln",
    "boulevard", "blvd", "drive", "dr.", "court", "ct.", "square", "sq",
    "circle", "plaza", "terrace", "trail", "way" ]

/-- The city/region keywords of `potential_address`. -/
def cityKeywords : List String :=
  [ "beijing", "shanghai", "hangzhou", "ningbo", "hong kong", "singapore",
    "cayman", "ky1", "prc" ]

/-- Any exclusion keyword occurs in the lowercased line. -/
def hasExclusionLower (ll : List Char) : Bool :=
  exclusionsList.any (fun kw => containsL ll kw.data)

/-- `any(kw in line_lower for kw in exclusions)` on the stripped line. -/
def hasExclusion (line : String) : Bool :=
  hasExclusionLower (lowerL (pyStrip line.data))

/-- The three literal lead phrases of `address_patterns` (each regex
`phrase.*` matches exactly when the phrase itself occurs, `.*` matching the
empty string). -/
def addressLeadHit (ll : List Char) : Bool :=
  containsL ll "address at ".data || containsL ll "registered in ".data ||
    containsL ll "located at ".data

/-- `no\.?\s*\d+` anchored at the head of `t` ('no', an optional dot, then
whitespace and a digit; taking the optional dot greedily agrees with the
regex, since skipping a present dot can never reach a digit). -/
def noNumAt (t : List Char) : Bool :=
  match t with
  | 'n' :: 'o' :: r =>
    let r1 := match r with
      | '.' :: rr => rr
      | _ => r
    (match r1.dropWhile isPySpace with
     | c :: _ => c.isDigit
     | [] => false)
  | _ => false

/-- `re.search(r"no\.?\s*\d+", ll)`. -/
def searchNoNum : List Char → Bool
  | [] => false
  | c :: rest => noNumAt (c :: rest) || searchNoNum rest

/-- The tail after one of the unit-number keywords
`no\.?|room|suite|unit|floor|building|apt` anchored at the head of `t` (the
alternatives start with pairwise distinct characters, so at most one can
match). -/
def unitKwTail (t : List Char) : Option (List Char) :=
  if startsWithL "no".data t then
    some (match t.drop 2 with
          | '.' :: rr => rr
          | r => r)
  else if startsWithL "room".data t then some (t.drop 4)
  else if startsWithL "suite".data t then some (t.drop 5)
  else if startsWithL "unit".data t then some (t.drop 4)
  else if startsWithL "floor".data t then some (t.drop 5)
  else if startsWithL "building".data t then some (t.drop 8)
  else if startsWithL "apt".data t then some (t.drop 3)
  else none

/-- `\s*\d+` at the head of `t`. -/
def spacesThenDigit (t : List Char) : Bool :=
  match t.dropWhile isPySpace with
  | c :: _ => c.isDigit
  | [] => false

/-- `\b(?:no\.?|room|suite|unit|floor|building|apt|#)\s*\d+` anchored at the
head of `t`; `prevWord` says whether the character before `t` is a word
character.  For the keyword alternatives (which start with a letter) the
boundary requires the previous character to be a non-word; for `#` (itself a
non-word character) it requires the previous character to be a word
character. -/
def hasNumberAt (prevWord : Bool) (t : List Char) : Bool :=
  (match (if prevWord then none else unitKwTail t) with
   | some r => spacesThenDigit r
   | none => false) ||
  (match t with
   | '#' :: r => prevWord && spacesThenDigit r
   | _ => false)

/-- `re.search` of the unit-number pattern over the lowercased line. -/
def searchHasNumber : Bool → List Char → Bool
  | _, [] => false
  | prevW, c :: rest => hasNumberAt prevW (c :: rest) || searchHasNumber (isWordChar c) rest

/-- `\b\d{5,6}(-\d{4})?\b` anchored at the head of `t`: a maximal digit run of
length 5 or 6 followed by a non-word character or the end.  (When the next
character is `-`, the optional `-\d{4}` either matches with a trailing
boundary or backtracks to empty, and the boundary at `-` then holds, so only
the run length and the following character matter.) -/
def postalAt (prevWord : Bool) (t : List Char) : Bool :=
  if prevWord then false
  else
    let p := t.span Char.isDigit
    (p.1.length == 5 || p.1.length == 6) &&
      (match p.2 with
       | [] => true
       | c :: _ => !(isWordChar c))

/-- `re.search` of the postal pattern over the stripped (case-preserving)
line. -/
def searchPostal : Bool → List Char → Bool
  | _, [] => false
  | prevW, c :: rest => postalAt prevW (c :: rest) || searchPostal (isWordChar c) rest

/-- The token count of Python `len(line.split())` (split on whitespace runs,
empties dropped); the flag records being inside a token. -/
def wsTokenCount : Bool → List Char → Nat
  | _, [] => 0
  | inTok, c :: rest =>
    if isPySpace c then wsTokenCount false rest
    else if inTok then wsTokenCount true rest
    else 1 + wsTokenCount true rest

/-- `potential_address(line)` of `07_parse_ex3_charters.py`: exclusion
keywords reject the line outright; then the lead-phrase patterns accept; then
a unit-number or postal-code hit combined with a street or city keyword
accepts; then a short line (at most 6 tokens) with a city keyword accepts;
everything else is rejected. -/
def potential_address (line : String) : Bool :=
  let l := pyStrip line.data
  let ll := lowerL l
  if hasExclusionLower ll then false
  else if addressLeadHit ll || searchNoNum ll then true
  else
    let has_number := searchHasNumber false ll
    let has_postal := searchPostal false l
    let has_street := streetKeywords.any (fun kw => containsL ll kw.data)
    let has_city := cityKeywords.any (fun kw => containsL ll kw.data)
    if (has_number || has_postal) && (has_street || has_city) then true
    else if has_city && decide (wsTokenCount false l ≤ 6) then true
    else false

/-! ### 09 QC auditor -/

/-- One entry of `QCChecker.errors` (`log_error`): the fields the claims
observe — ticker, CIK, the error code, and the context entries the
subsidiary checks set. -/
structure QCError where
  ticker : String
  cik10 : String
  error_code : String
  ctx_sub_uuid : Option String := none
  ctx_subsidiary_name : Option String := none
  ctx_jurisdictions : Option (List (Option String)) := none

/-- The two critical defect codes of `calculate_statistics`. -/
def criticalCodes : List String := ["MISSING_INCORP_COUNTRY", "NO_EX21_FOUND"]

/-- `self.stats["critical_errors"]`: the number of logged errors whose code is
critical. -/
def criticalErrorCount (errors : List QCError) : Nat :=
  (errors.filter (fun e => criticalCodes.contains e.error_code)).length

/-- The return value of `run_all_checks`: `0` when no critical error was
logged, `1` otherwise.  The warnings list is taken as an argument because it
is part of the checker state, but the exit code never consults it. -/
def runExitCode (errors : List QCError) (_warnings : List String) : Nat :=
  if criticalErrorCount errors = 0 then 0 else 1

/-- A CSV cell as `pd.read_csv` sees it: an empty field is `NaN`. -/
def readCsvCell (s : String) : Option String := if s = "" then none else some s

/-- The completeness predicate of QC check 1 on parents:
`df["incorp_country_iso3"].isna()`. -/
def missingIncorpCountry (cell : Option String) : Bool := cell.isNone

/-- First-occurrence deduplication (`pd.unique` / `dict.fromkeys` order),
with an accumulator of already-kept elements. -/
def dedupKeepAux {α : Type} [DecidableEq α] (seen : List α) : List α → List α
  | [] => []
  | x :: xs =>
    if x ∈ seen then dedupKeepAux seen xs
    else x :: dedupKeepAux (x :: seen) xs

/-- First-occurrence deduplication of a list. -/
def dedupKeep {α : Type} [DecidableEq α] (l : List α) : List α := dedupKeepAux [] l

/-- One row of `subs_master_*.csv` as `check_subsidiaries_master` reads it
(the columns that check consults). -/
structure SubsQcRow where
  sub_uuid : String
  parent_ticker : String
  parent_cik10 : String
  subsidiary_name : String
  jurisdiction_iso3 : Option String
  parse_confidence : Option ℚ
deriving DecidableEq

/-- `df[df["sub_uuid"] == u]`. -/
def rowsWithUuid (df : List SubsQcRow) (u : String) : List SubsQcRow :=
  df.filter (fun r => r.sub_uuid == u)

/-- `df[df["sub_uuid"] == u]["jurisdiction_iso3"].unique()`: the distinct
jurisdiction cells (missing included) in order of appearance. -/
def uniqueJuris (df : List SubsQcRow) (u : String) : List (Option String) :=
  dedupKeep ((rowsWithUuid df u).map (fun r => r.jurisdiction_iso3))

/-- `groupby("sub_uuid")["jurisdiction_iso3"].nunique()` for one key: the
number of distinct non-missing jurisdiction values. -/
def nuniqueJuris (df : List SubsQcRow) (u : String) : Nat :=
  (dedupKeep (((rowsWithUuid df u).map (fun r => r.jurisdiction_iso3)).filterMap id)).length

/-- The index of the drifted groups: `groupby` keys are the distinct
`sub_uuid` values in sorted order, filtered to those whose jurisdiction
nunique exceeds one. -/
def driftedUuids (df : List SubsQcRow) : List String :=
  (List.insertionSort (fun a b : String => a ≤ b)
      (dedupKeep (df.map (fun r => r.sub_uuid)))).filter
    (fun u => decide (1 < nuniqueJuris df u))

/-- The `JURISDICTION_DRIFT` error logged for one drifted key: ticker and CIK
from the key's first row (`iloc[0]`; a drifted key always has rows — the
empty case is unreachable and logs blank identifiers), and the context names
the key and all observed jurisdiction values. -/
def mkDriftError (df : List SubsQcRow) (u : String) : QCError :=
  match rowsWithUuid df u with
  | [] =>
    { ticker := "", cik10 := "", error_code := "JURISDICTION_DRIFT",
      ctx_sub_uuid := some u, ctx_subsidiary_name := some "",
      ctx_jurisdictions := some (uniqueJuris df u) }
  | r :: _ =>
    { ticker := r.parent_ticker, cik10 := r.parent_cik10,
      error_code := "JURISDICTION_DRIFT",
      ctx_sub_uuid := some u, ctx_subsidiary_name := some r.subsidiary_name,
      ctx_jurisdictions := some (uniqueJuris df u) }

/-- Check 3 of `check_subsidiaries_master`: one drift error per drifted key. -/
def driftErrors (df : List SubsQcRow) : List QCError :=
  (driftedUuids df).map (mkDriftError df)

/-- Check 1 of `check_subsidiaries_master`: one error per row with a missing
jurisdiction. -/
def missingJurErrors (df : List SubsQcRow) : List QCError :=
  (df.filter (fun r => r.jurisdiction_iso3.isNone)).map (fun r =>
    { ticker := r.parent_ticker, cik10 := r.parent_cik10,
      error_code := "MISSING_JURISDICTION",
      ctx_sub_uuid := some r.sub_uuid,
      ctx_subsidiary_name := some r.subsidiary_name })

/-- Check 2 of `check_subsidiaries_master`: one error per row with parse
confidence below `MIN_PARSE_CONFIDENCE = 0.60` (a missing confidence compares
false). -/
def lowConfErrors (df : List SubsQcRow) : List QCError :=
  (df.filter (fun r =>
      match r.parse_confidence with
      | some c => decide (c < (0.60 : ℚ))
      | none => false)).map (fun r =>
    { ticker := r.parent_ticker, cik10 := r.parent_cik10,
      error_code := "LOW_PARSE_CONFIDENCE",
      ctx_subsidiary_name := some r.subsidiary_name })

/-- The number of rows sharing a `(parent_cik10, sub_uuid)` key. -/
def keyCount (df : List SubsQcRow) (k : String × String) : Nat :=
  (df.filter (fun r => r.parent_cik10 == k.1 && r.sub_uuid == k.2)).length

/-- `df.duplicated(subset=["parent_cik10","sub_uuid"], keep=False)`: the rows
whose key occurs more than once. -/
def dupRows (df : List SubsQcRow) : List SubsQcRow :=
  df.filter (fun r => decide (2 ≤ keyCount df (r.parent_cik10, r.sub_uuid)))

/-- The `DUPLICATE_ENTRY` error logged for one CIK owning duplicated rows
(ticker from the CIK's first duplicated row). -/
def mkDupError (df : List SubsQcRow) (cik : String) : QCError :=
  match (dupRows df).filter (fun r => r.parent_cik10 == cik) with
  | [] => { ticker := "", cik10 := cik, error_code := "DUPLICATE_ENTRY" }
  | r :: _ => { ticker := r.parent_ticker, cik10 := cik, error_code := "DUPLICATE_ENTRY" }

/-- Check 4 of `check_subsidiaries_master`: one `DUPLICATE_ENTRY` error per
CIK that owns duplicated rows, in order of appearance. -/
def dupErrors (df : List SubsQcRow) : List QCError :=
  (dedupKeep ((dupRows df).map (fun r => r.parent_cik10))).map (mkDupError df)

/-- `check_subsidiaries_master` on an in-memory table: the errors it logs, in
logging order, paired with the table it leaves behind — the function only
reads the dataframe, so the returned table is the input. -/
def checkSubsidiariesMaster (df : List SubsQcRow) : List QCError × List SubsQcRow :=
  (missingJurErrors df ++ lowConfErrors df ++ driftErrors df ++ dupErrors df, df)

/-! ### Helper lemmas -/

theorem mem_dedupKeepAux {α : Type} [DecidableEq α] (a : α) :
    ∀ (l seen : List α), a ∈ dedupKeepAux seen l ↔ a ∈ l ∧ a ∉ seen := by
  intro l
  induction l with
  | nil => intro seen; simp [dedupKeepAux]
  | cons x xs ih =>
    intro seen
    by_cases hx : x ∈ seen
    · rw [dedupKeepAux, if_pos hx, ih]
      simp only [List.mem_cons]
      constructor
      · rintro ⟨h1, h2⟩; exact ⟨Or.inr h1, h2⟩
      · rintro ⟨h1 | h1, h2⟩
        · subst h1; exact absurd hx h2
        · exact ⟨h1, h2⟩
    · rw [dedupKeepAux, if_neg hx]
      simp only [List.mem_cons, ih, List.mem_cons]
      by_cases ha : a = x
      · subst ha; simp [hx]
      · simp [ha]

theorem mem_dedupKeep {α : Type} [DecidableEq α] (a : α) (l : List α) :
    a ∈ dedupKeep l ↔ a ∈ l := by
  simp [dedupKeep, mem_dedupKeepAux]

theorem nodup_dedupKeepAux {α : Type} [DecidableEq α] :
    ∀ (l seen : List α), (dedupKeepAux seen l).Nodup := by
  intro l
  induction l with
  | nil => intro seen; simp [dedupKeepAux]
  | cons x xs ih =>
    intro seen
    by_cases hx : x ∈ seen
    · rw [dedupKeepAux, if_pos hx]; exact ih seen
    · rw [dedupKeepAux, if_neg hx]
      refine List.nodup_cons.mpr ⟨?_, ih (x :: seen)⟩
      intro hmem
      have := (mem_dedupKeepAux x xs (x :: seen)).mp hmem
      exact this.2 (List.mem_cons_self x seen)

theorem nodup_dedupKeep {α : Type} [DecidableEq α] (l : List α) :
    (dedupKeep l).Nodup := nodup_dedupKeepAux l []

theorem filter_beq_eq_singleton (u : String) :
    ∀ l : List String, l.Nodup → u ∈ l → l.filter (fun v => v == u) = [u] := by
  intro l
  induction l with
  | nil => intro _ hm; cases hm
  | cons a t ih =>
    intro hnd hm
    have ha : a ∉ t := (List.nodup_cons.mp hnd).1
    have hnd2 : t.Nodup := (List.nodup_cons.mp hnd).2
    rcases List.mem_cons.mp hm with hau | hut
    · rw [List.filter_cons, if_pos (by simp [hau])]
      have ht : t.filter (fun v => v == u) = [] := by
        apply List.filter_eq_nil_iff.mpr
        intro b hb
        simp only [beq_iff_eq]
        intro hbu
        rw [hbu, hau] at hb
        exact ha hb
      rw [ht, hau]
    · have hne : a ≠ u := by
        intro hau
        rw [hau] at ha
        exact ha hut
      rw [List.filter_cons, if_neg (by simp [hne])]
      exact ih hnd2 hut

theorem head?_append_singleton {α : Type} (l : List α) (x : α) (h : l ≠ []) :
    (l ++ [x]).head? = l.head? := by
  cases l with
  | nil => exact absurd rfl h
  | cons a t => rfl

theorem keepAppend_head (l : List String) (x : String) (h : l ≠ []) :
    (if l.contains x then l else l ++ [x]).head? = l.head? := by
  split
  · rfl
  · exact head?_append_singleton l x h

theorem keepAppend_ne_nil (l : List String) (x : String) (h : l ≠ []) :
    (if l.contains x then l else l ++ [x]) ≠ [] := by
  split
  · exact h
  · simp

theorem tagStep_fst_head (cond : Bool) (tag k v : String) (sl : List String × Lineage)
    (h : sl.1 ≠ []) : ((tagStep cond tag k v sl).1).head? = sl.1.head? := by
  unfold tagStep
  split
  · exact head?_append_singleton sl.1 tag h
  · rfl

theorem tagStep_fst_ne_nil (cond : Bool) (tag k v : String) (sl : List String × Lineage)
    (h : sl.1 ≠ []) : (tagStep cond tag k v sl).1 ≠ [] := by
  unfold tagStep
  split
  · simp
  · exact h

theorem tagStep_true_fst_ne_nil (tag k v : String) (sl : List String × Lineage) :
    (tagStep true tag k v sl).1 ≠ [] := by
  unfold tagStep
  by_cases hc : sl.1.contains tag
  · have hm : tag ∈ sl.1 := by simpa using hc
    rw [if_neg (by simp [hm])]
    exact List.ne_nil_of_mem hm
  · have hm : tag ∉ sl.1 := by simpa using hc
    rw [if_pos (by simp [hm])]
    simp

theorem slTicker_fst_head (env : MergeEnv) (row : ParentRow)
    (h : (slName env row).1 ≠ []) :
    ((slTicker env row).1).head? = (slName env row).1.head? ∧
      (slTicker env row).1 ≠ [] := by
  have h2 : (slDei env row).1 ≠ [] := tagStep_fst_ne_nil _ _ _ _ _ h
  have h3 : (slCik env row).1 ≠ [] := tagStep_fst_ne_nil _ _ _ _ _ h2
  have h4 : (slUscc env row).1 ≠ [] := tagStep_fst_ne_nil _ _ _ _ _ h3
  have h5 : (slTicker env row).1 ≠ [] := tagStep_fst_ne_nil _ _ _ _ _ h4
  refine ⟨?_, h5⟩
  show ((slTicker env row).1).head? = _
  rw [show (slTicker env row) = tagStep _ _ _ _ (slUscc env row) from rfl]
  rw [tagStep_fst_head _ _ _ _ _ h4]
  rw [show (slUscc env row) = tagStep _ _ _ _ (slCik env row) from rfl]
  rw [tagStep_fst_head _ _ _ _ _ h3]
  rw [show (slCik env row) = tagStep _ _ _ _ (slDei env row) from rfl]
  rw [tagStep_fst_head _ _ _ _ _ h2]
  rw [show (slDei env row) = tagStep _ _ _ _ (slName env row) from rfl]
  rw [tagStep_fst_head _ _ _ _ _ h]

theorem slTicker_fst_ne_nil_of_ticker (env : MergeEnv) (row : ParentRow)
    (h : hasValue row.parent_ticker = true) : (slTicker env row).1 ≠ [] := by
  have h2 : (slDei env row).1 ≠ [] := by
    unfold slDei
    rw [h]
    exact tagStep_true_fst_ne_nil _ _ _ _
  have h3 : (slCik env row).1 ≠ [] := tagStep_fst_ne_nil _ _ _ _ _ h2
  have h4 : (slUscc env row).1 ≠ [] := tagStep_fst_ne_nil _ _ _ _ _ h3
  exact tagStep_fst_ne_nil _ _ _ _ _ h4

theorem slTicker_fst_ne_nil_of_cik (env : MergeEnv) (row : ParentRow)
    (h : hasValue row.parent_cik10 = true) : (slTicker env row).1 ≠ [] := by
  have h3 : (slCik env row).1 ≠ [] := by
    unfold slCik
    rw [h]
    exact tagStep_true_fst_ne_nil _ _ _ _
  have h4 : (slUscc env row).1 ≠ [] := tagStep_fst_ne_nil _ _ _ _ _ h3
  exact tagStep_fst_ne_nil _ _ _ _ _ h4

theorem stateFill_sources_head (env : MergeEnv) (row : ParentRow)
    (h : (slTicker env row).1 ≠ []) :
    ((stateFill env row).2.1).head? = (slTicker env row).1.head? ∧
      (stateFill env row).2.1 ≠ [] := by
  unfold stateFill
  split
  · exact ⟨keepAppend_head _ _ h, keepAppend_ne_nil _ _ h⟩
  · exact ⟨rfl, h⟩

theorem ex21Step_sources_head (env : MergeEnv) (row : ParentRow)
    (h : (stateFill env row).2.1 ≠ []) :
    ((ex21Step env row).2.2.1).head? = (stateFill env row).2.1.head? ∧
      (ex21Step env row).2.2.1 ≠ [] := by
  unfold ex21Step
  cases hm : ex21Matches env row with
  | nil => exact ⟨rfl, h⟩
  | cons e es =>
    dsimp only
    split
    · exact ⟨keepAppend_head _ _ h, keepAppend_ne_nil _ _ h⟩
    · exact ⟨rfl, h⟩

theorem sources_used_head_of_name (env : MergeEnv) (row : ParentRow)
    (h : (slName env row).1 ≠ []) :
    (buildRecord env row).sources_used.head? = (slName env row).1.head? ∧
      (buildRecord env row).sources_used ≠ [] := by
  have h1 := slTicker_fst_head env row h
  have h2 := stateFill_sources_head env row h1.2
  have h3 := ex21Step_sources_head env row h2.2
  refine ⟨?_, h3.2⟩
  show ((ex21Step env row).2.2.1).head? = _
  rw [h3.1, h2.1, h1.1]

theorem sources_used_ne_nil_of_slTicker (env : MergeEnv) (row : ParentRow)
    (h : (slTicker env row).1 ≠ []) : (buildRecord env row).sources_used ≠ [] := by
  have h2 := stateFill_sources_head env row h
  have h3 := ex21Step_sources_head env row h2.2
  exact h3.2

theorem nameResolve_of_name (env : MergeEnv) (row : ParentRow)
    (h : hasValue row.registrant_name = true) :
    nameResolve env row = (row.registrant_name, ["DEI"], [("dei_path", env.deiFile)]) := by
  unfold nameResolve
  rw [if_pos h]

theorem mkDriftError_code (df : List SubsQcRow) (u : String) :
    (mkDriftError df u).error_code = "JURISDICTION_DRIFT" := by
  unfold mkDriftError
  split <;> rfl

theorem mkDriftError_uuid (df : List SubsQcRow) (u : String) :
    (mkDriftError df u).ctx_sub_uuid = some u := by
  unfold mkDriftError
  split <;> rfl

theorem mkDriftError_juris (df : List SubsQcRow) (u : String) :
    (mkDriftError df u).ctx_jurisdictions = some (uniqueJuris df u) := by
  unfold mkDriftError
  split <;> rfl

theorem mkDupError_code (df : List SubsQcRow) (cik : String) :
    (mkDupError df cik).error_code = "DUPLICATE_ENTRY" := by
  unfold mkDupError
  split <;> rfl

/-! ### Claim theorems -/

/-- C10: for every environment and input row, the parent record written by
the 08a merge has `incorp_country_iso3` equal to the empty string — no source
in the merge ever populates it — and after the CSV round trip (pandas reads
an empty cell as `NaN`) the QC completeness check
`df["incorp_country_iso3"].isna()` reads the cell as missing. -/
theorem incorp_country_always_blank (env : MergeEnv) (row : ParentRow) :
    (buildRecord env row).incorp_country_iso3 = "" ∧
      missingIncorpCountry (readCsvCell (buildRecord env row).incorp_country_iso3)
        = true :=
  ⟨rfl, rfl⟩

/-- C5: the QC run's exit status is a function of the critical-defect count
alone — it is `0` exactly when that count is zero and `1` exactly otherwise;
it does not depend on the warnings list, and prepending any error whose code
is not critical (not `MISSING_INCORP_COUNTRY` or `NO_EX21_FOUND`) leaves it
unchanged. -/
theorem qc_exit_code_critical_only (errors : List QCError) (warnings : List String) :
    (runExitCode errors warnings = 0 ↔ criticalErrorCount errors = 0) ∧
    (runExitCode errors warnings = 1 ↔ criticalErrorCount errors ≠ 0) ∧
    (∀ warnings2, runExitCode errors warnings = runExitCode errors warnings2) ∧
    (∀ e : QCError, criticalCodes.contains e.error_code = false →
      runExitCode (e :: errors) warnings = runExitCode errors warnings) := by
  refine ⟨?_, ?_, fun _ => rfl, ?_⟩
  · by_cases h : criticalErrorCount errors = 0 <;> simp [runExitCode, h]
  · by_cases h : criticalErrorCount errors = 0 <;> simp [runExitCode, h]
  · intro e he
    have hm : e.error_code ∉ criticalCodes := by simpa using he
    have hsame : criticalErrorCount (e :: errors) = criticalErrorCount errors := by
      unfold criticalErrorCount
      rw [List.filter_cons, if_neg (by simp [hm])]
    unfold runExitCode
    rw [hsame]

/-- A non-critical error for the exit-code witness. -/
def warnOnlyError : QCError :=
  { ticker := "T1", cik10 := "0000000001", error_code := "MISSING_JURISDICTION" }

/-- Witness for C5: one non-critical defect and one warning still exit 0. -/
theorem qc_exit_code_critical_only_witness :
    runExitCode [warnOnlyError] ["mapping rate below target"] = 0 :=
  ((qc_exit_code_critical_only [warnOnlyError] ["mapping rate below target"]).1).mpr
    (by decide)

/-- C1: the subsidiary identity key is a pure function of exactly
`(parent identifier, normalized subsidiary name, normalized jurisdiction)`:
`make_uuid` reads nothing else (no filing year, no hidden state — `uuid5dns`
abstracts the deterministic `uuid.uuid5` hash, and the theorem holds for
every such function), so any two raw extraction rows agreeing on that triple
receive the same key, and recomputation trivially yields the same key again. -/
theorem subsidiary_identity_pure (uuid5dns : String → String) (r1 r2 : RawSubRow)
    (hp : r1.parent_cik10 = r2.parent_cik10)
    (hn : normalize_sub_name r1.subsidiary_name_raw
      = normalize_sub_name r2.subsidiary_name_raw)
    (hj : (normalize_jurisdiction r1.jurisdiction_raw).1
      = (normalize_jurisdiction r2.jurisdiction_raw).1) :
    (buildSubRow uuid5dns r1).sub_uuid = (buildSubRow uuid5dns r2).sub_uuid := by
  show make_uuid uuid5dns r1.parent_cik10 _ _ = make_uuid uuid5dns r2.parent_cik10 _ _
  unfold make_uuid
  rw [hp, hn, hj]

/-- A raw 2022 extraction of ABC Holdings Ltd. under the PRC alias. -/
def idRow2022 : RawSubRow :=
  { parent_ticker := "TICK", parent_cik10 := "0000000001",
    subsidiary_name_raw := some "ABC Holdings Ltd.",
    jurisdiction_raw := some "PRC", ownership_raw := none,
    exhibit_year := 2022, accession := "acc-2022", exhibit_label := "EX-21.1",
    source_path := "f2022.htm" }

/-- The same subsidiary extracted in 2023 under the spelled-out alias. -/
def idRow2023 : RawSubRow :=
  { parent_ticker := "TICK", parent_cik10 := "0000000001",
    subsidiary_name_raw := some "ABC Holdings Ltd.",
    jurisdiction_raw := some "China", ownership_raw := none,
    exhibit_year := 2023, accession := "acc-2023", exhibit_label := "EX-21.1",
    source_path := "f2023.htm" }

/-- Witness for C1: the 2022 PRC row and the 2023 China row of the same
subsidiary receive the same identity key. -/
theorem subsidiary_identity_pure_witness :
    (buildSubRow id idRow2022).sub_uuid = (buildSubRow id idRow2023).sub_uuid :=
  subsidiary_identity_pure id idRow2022 idRow2023 rfl (by decide) (by decide)

/-- C2 (the code's actual behavior at the claim's failing input): 08b assigns
`first_seen_year = last_seen_year = exhibit_year` per raw row and then drops
duplicate `(parent_cik10, sub_uuid)` keys keeping the first row, so the two
rows of `idRow2022`/`idRow2023` (same parent, name `ABC Holdings Ltd.`,
jurisdictions `PRC` and `China` both normalizing to `China`) collapse to one
master row whose years are both 2022 — not `last_seen_year = 2023` as the
specification states. -/
theorem subs_master_duplicate_years (uuid5dns : String → String) :
    (subsMaster uuid5dns [idRow2022, idRow2023]).map
        (fun r => (r.first_seen_year, r.last_seen_year)) = [(2022, 2022)] := by
  have hkey : (buildSubRow uuid5dns idRow2023).sub_uuid
      = (buildSubRow uuid5dns idRow2022).sub_uuid := by
    show uuid5dns _ = uuid5dns _
    exact congrArg uuid5dns (by decide)
  have hpar : (buildSubRow uuid5dns idRow2023).parent_cik10
      = (buildSubRow uuid5dns idRow2022).parent_cik10 := rfl
  have hone : subsMaster uuid5dns [idRow2022, idRow2023]
      = [buildSubRow uuid5dns idRow2022] := by
    unfold subsMaster
    simp only [List.map_cons, List.map_nil]
    simp [dropDupByKey, hkey, hpar]
  rw [hone]
  rfl

/-- C3: whenever the scraped-DEI registrant name is non-blank, the merged
parent record's name is that DEI name even when submission metadata holds a
conflicting one, the name branch records exactly the `DEI` tag (so `DEI`
heads `sources_used` and the submissions tag is not the name's contributor);
the submissions name decides the record's name only when the DEI name is
absent or blank, and the USCC roster name only when both are. -/
theorem parent_name_waterfall (env : MergeEnv) (row : ParentRow) :
    (hasValue row.registrant_name = true →
      (buildRecord env row).parent_name = row.registrant_name ∧
      nameResolve env row
        = (row.registrant_name, ["DEI"], [("dei_path", env.deiFile)]) ∧
      (buildRecord env row).sources_used.head? = some "DEI") ∧
    (hasValue row.registrant_name = false →
      hasValue (subNameOf env row.parent_ticker) = true →
      (buildRecord env row).parent_name = subNameOf env row.parent_ticker) ∧
    (hasValue row.registrant_name = false →
      hasValue (subNameOf env row.parent_ticker) = false →
      hasValue (usccGet env row.parent_ticker) = true →
      (buildRecord env row).parent_name = usccGet env row.parent_ticker) := by
  refine ⟨?_, ?_, ?_⟩
  · intro h
    have hnr := nameResolve_of_name env row h
    refine ⟨?_, hnr, ?_⟩
    · show (nameResolve env row).1 = _
      rw [hnr]
    · have hne : (slName env row).1 ≠ [] := by
        show (nameResolve env row).2.1 ≠ []
        rw [hnr]
        simp
      rw [(sources_used_head_of_name env row hne).1]
      show ((nameResolve env row).2.1).head? = _
      rw [hnr]
      rfl
  · intro h1 h2
    show (nameResolve env row).1 = _
    unfold nameResolve
    rw [if_neg (by simp [h1]), if_pos h2]
  · intro h1 h2 h3
    show (nameResolve env row).1 = _
    unfold nameResolve
    rw [if_neg (by simp [h1]), if_neg (by simp [h2]), if_pos h3]

/-- An environment whose submissions metadata holds a name conflicting with
the DEI facts and whose USCC roster also knows the ticker. -/
def envConflict : MergeEnv :=
  { deiFile := "dei_facts_20250101.csv", cikFile := "cik_map_20250101.csv",
    usccFile := "uscc.csv", usccLookup := fun _ => some "Roster Name Co",
    submissionsName := fun _ => some "Conflicting Submission Name",
    submissionsState := fun _ => none, submissionsFileExists := fun _ => true,
    ex21 := [] }

/-- A merged input row whose scraped-DEI registrant name is non-blank. -/
def rowDeiName : ParentRow :=
  { parent_ticker := some "TICK", parent_cik10 := some "0000000001",
    registrant_name := some "DEI Registrant Inc", incorp_state_raw := none,
    legal_form := none }

/-- Witness for C3: with a conflicting submissions name present, the record's
name is the DEI name and `DEI` heads `sources_used`. -/
theorem parent_name_waterfall_witness :
    (buildRecord envConflict rowDeiName).parent_name = some "DEI Registrant Inc" ∧
    (buildRecord envConflict rowDeiName).sources_used.head? = some "DEI" := by
  have h := (parent_name_waterfall envConflict rowDeiName).1 (by decide)
  exact ⟨h.1.trans rfl, h.2.2⟩

/-- An environment with no submissions files, no USCC entries and an empty
EX-21 index. -/
def envNoFiles : MergeEnv :=
  { deiFile := "", cikFile := "", usccFile := "",
    usccLookup := fun _ => none, submissionsName := fun _ => none,
    submissionsState := fun _ => none, submissionsFileExists := fun _ => false,
    ex21 := [] }

/-- A merged input row whose ticker and CIK are blank strings and whose other
fields are all missing. -/
def rowAllBlank : ParentRow :=
  { parent_ticker := some "", parent_cik10 := some "",
    registrant_name := none, incorp_state_raw := none, legal_form := none }

/-- Counterexample for C4: a row with all fields null or blank, in an
environment with no side sources, produces a parent record whose
`sources_used` list is empty — the joined CSV cell is the empty string, an
empty provenance trail. -/
theorem sources_used_empty_counterexample :
    (buildRecord envNoFiles rowAllBlank).sources_used = [] ∧
      sourcesUsedCell (buildRecord envNoFiles rowAllBlank) = "" :=
  ⟨rfl, rfl⟩

/-- C4 as amended: every parent record built from a row whose name, ticker or
CIK is non-blank has a non-empty `sources_used`; only a row with all three
blank (and no submissions/EX-21 contribution) can produce an empty one. -/
theorem sources_used_nonempty_amended (env : MergeEnv) (row : ParentRow)
    (h : hasValue row.registrant_name = true ∨ hasValue row.parent_ticker = true ∨
      hasValue row.parent_cik10 = true) :
    (buildRecord env row).sources_used ≠ [] := by
  rcases h with h | h | h
  · have hnr := nameResolve_of_name env row h
    have hne : (slName env row).1 ≠ [] := by
      show (nameResolve env row).2.1 ≠ []
      rw [hnr]
      simp
    exact (sources_used_head_of_name env row hne).2
  · exact sources_used_ne_nil_of_slTicker env row (slTicker_fst_ne_nil_of_ticker env row h)
  · exact sources_used_ne_nil_of_slTicker env row (slTicker_fst_ne_nil_of_cik env row h)

/-- A merged input row with only a ticker present. -/
def rowTickerOnly : ParentRow :=
  { parent_ticker := some "TICK", parent_cik10 := none,
    registrant_name := none, incorp_state_raw := none, legal_form := none }

/-- Witness for the amended C4: a bare ticker already guarantees a non-empty
provenance list. -/
theorem sources_used_nonempty_amended_witness :
    (buildRecord envNoFiles rowTickerOnly).sources_used ≠ [] :=
  sources_used_nonempty_amended envNoFiles rowTickerOnly (Or.inr (Or.inl (by decide)))

/-- C7 as amended: for every jurisdiction string that is non-blank after
stripping and whose cleaned form is not a key of the alias table, the
normalizer returns the cleaned form unchanged together with the direct ISO3
lookup of that cleaned form (null for every value outside the ISO3 table);
the function is total, so it never raises. -/
theorem normalize_jurisdiction_unmapped (s : String)
    (hne : pyStrip s.data ≠ [])
    (hun : List.lookup (cleanJur s) aliasTable = none) :
    normalize_jurisdiction (some s) = (cleanJur s, List.lookup (cleanJur s) iso3Table) := by
  simp only [normalize_jurisdiction]
  rw [if_neg hne]
  simp [hun]

/-- Counterexample for C7: `"Philippines"` is non-blank and absent from the
alias table, yet the normalizer returns ISO3 `PHL`, not a null ISO3 — the
cleaned string is looked up directly in the ISO3 table. -/
theorem normalize_jurisdiction_philippines :
    pyStrip "Philippines".data ≠ [] ∧
    List.lookup (cleanJur "Philippines") aliasTable = none ∧
    (normalize_jurisdiction (some "Philippines")).2 ≠ none ∧
    normalize_jurisdiction (some "Philippines") = ("Philippines", some "PHL") :=
  ⟨by decide, by decide, by decide, by decide⟩

/-- Witness for the amended C7: an unmapped alias outside both tables
normalizes to itself with a null ISO3. -/
theorem normalize_jurisdiction_unmapped_witness :
    normalize_jurisdiction (some "Narnia") = ("Narnia", none) := by
  rw [normalize_jurisdiction_unmapped "Narnia" (by decide) (by decide)]
  decide

/-- C8: `"84.32% owned"` extracts `84.32`, `"Wholly-owned subsidiary"`
extracts exactly `100.0`, `"see note 4"` extracts nothing; in general a
matched numeric percentage always wins, the wholly cue yields `100.0` only
when no numeric percentage matches, and text with neither yields `None`
rather than zero. -/
theorem ownership_extraction :
    extract_ownership_from_text (some "84.32% owned") = some (84.32 : ℚ) ∧
    extract_ownership_from_text (some "Wholly-owned subsidiary") = some (100 : ℚ) ∧
    extract_ownership_from_text (some "see note 4") = none ∧
    (∀ (s : String) (n : Numeral), searchPct false (lowerL s.data) = some n →
      extract_ownership_from_text (some s) = some (numeralVal n)) ∧
    (∀ s : String, searchPct false (lowerL s.data) = none →
      whollyCue (lowerL s.data) = true →
      extract_ownership_from_text (some s) = some (100 : ℚ)) ∧
    (∀ s : String, searchPct false (lowerL s.data) = none →
      whollyCue (lowerL s.data) = false →
      extract_ownership_from_text (some s) = none) := by
  refine ⟨?_, ?_, ?_, ?_, ?_, ?_⟩
  · have h : searchPct false (lowerL "84.32% owned".data) = some ⟨84, 32, 2⟩ := by
      decide
    simp only [extract_ownership_from_text, h, numeralVal]
    norm_num
  · have h : searchPct false (lowerL "Wholly-owned subsidiary".data) = none := by
      decide
    have hw : whollyCue (lowerL "Wholly-owned subsidiary".data) = true := by decide
    simp [extract_ownership_from_text, h, hw]
  · have h : searchPct false (lowerL "see note 4".data) = none := by decide
    have hw : whollyCue (lowerL "see note 4".data) = false := by decide
    simp [extract_ownership_from_text, h, hw]
  · intro s n h
    simp only [extract_ownership_from_text, h]
  · intro s h hw
    simp [extract_ownership_from_text, h, hw]
  · intro s h hw
    simp [extract_ownership_from_text, h, hw]

/-- Witness for C8: a wholly-owned cue with no numeric percentage yields
exactly 100. -/
theorem ownership_extraction_witness :
    extract_ownership_from_text (some "a wholly owned unit") = some (100 : ℚ) :=
  ownership_extraction.2.2.2.2.1 "a wholly owned unit" (by decide) (by decide)

/-- C9: any line containing a legal/procedural exclusion keyword is rejected
by the address-line classifier outright (even if it would otherwise match an
address pattern); in particular the boilerplate line
`Agreement Section 4.2, the Company shall...` is never a potential address,
while `Unit 12, 88 Queensway, Hong Kong` is one. -/
theorem address_line_classification :
    (∀ line : String, hasExclusion line = true → potential_address line = false) ∧
    potential_address "Agreement Section 4.2, the Company shall..." = false ∧
    potential_address "Unit 12, 88 Queensway, Hong Kong" = true := by
  refine ⟨?_, by decide, by decide⟩
  intro line h
  unfold hasExclusion at h
  simp only [potential_address]
  rw [if_pos h]

/-- Witness for C9: a line with the `shareholder` keyword is rejected. -/
theorem address_line_classification_witness :
    potential_address "the shareholder agreement" = false :=
  address_line_classification.1 "the shareholder agreement" (by decide)

theorem exists_row_of_nunique_pos (df : List SubsQcRow) (u : String)
    (h : 0 < nuniqueJuris df u) : ∃ r ∈ df, r.sub_uuid = u := by
  by_contra hno
  push_neg at hno
  have hnil : rowsWithUuid df u = [] := by
    apply List.filter_eq_nil_iff.mpr
    intro r hr
    simp [hno r hr]
  unfold nuniqueJuris at h
  rw [hnil] at h
  simp [dedupKeep, dedupKeepAux] at h

theorem mem_driftedUuids (df : List SubsQcRow) (u : String)
    (h : 1 < nuniqueJuris df u) : u ∈ driftedUuids df := by
  unfold driftedUuids
  apply List.mem_filter.mpr
  constructor
  · apply (List.perm_insertionSort (fun a b : String => a ≤ b) _).mem_iff.mpr
    rw [mem_dedupKeep]
    obtain ⟨r, hr, hru⟩ := exists_row_of_nunique_pos df u (by omega)
    exact List.mem_map.mpr ⟨r, hr, hru⟩
  · simpa using h

theorem nodup_driftedUuids (df : List SubsQcRow) : (driftedUuids df).Nodup := by
  unfold driftedUuids
  apply List.Nodup.filter
  exact ((List.perm_insertionSort (fun a b : String => a ≤ b) _).nodup_iff).mpr
    (nodup_dedupKeep _)

/-- C6: for every subsidiary table and identity key whose rows carry more
than one distinct (non-missing) jurisdiction value, `check_subsidiaries_master`
emits exactly one `JURISDICTION_DRIFT` defect for that key; that defect's
context names all observed jurisdiction values (every row's value for the key
appears in it), and the check leaves the table unmodified. -/
theorem jurisdiction_drift_single_defect (df : List SubsQcRow) (u : String)
    (h : 1 < nuniqueJuris df u) :
    ((checkSubsidiariesMaster df).1.filter
        (fun e => e.error_code == "JURISDICTION_DRIFT" && e.ctx_sub_uuid == some u))
      = [mkDriftError df u] ∧
    (mkDriftError df u).ctx_jurisdictions = some (uniqueJuris df u) ∧
    (∀ r ∈ df, r.sub_uuid = u → r.jurisdiction_iso3 ∈ uniqueJuris df u) ∧
    (checkSubsidiariesMaster df).2 = df := by
  have hb1 : (("MISSING_JURISDICTION" : String) == "JURISDICTION_DRIFT") = false := by
    decide
  have hb2 : (("LOW_PARSE_CONFIDENCE" : String) == "JURISDICTION_DRIFT") = false := by
    decide
  have hb3 : (("DUPLICATE_ENTRY" : String) == "JURISDICTION_DRIFT") = false := by
    decide
  have hmj : (missingJurErrors df).filter
      (fun e => e.error_code == "JURISDICTION_DRIFT" && e.ctx_sub_uuid == some u) = [] := by
    apply List.filter_eq_nil_iff.mpr
    intro e he
    simp only [missingJurErrors, List.mem_map] at he
    obtain ⟨r, hr, rfl⟩ := he
    simp [hb1]
  have hlc : (lowConfErrors df).filter
      (fun e => e.error_code == "JURISDICTION_DRIFT" && e.ctx_sub_uuid == some u) = [] := by
    apply List.filter_eq_nil_iff.mpr
    intro e he
    simp only [lowConfErrors, List.mem_map] at he
    obtain ⟨r, hr, rfl⟩ := he
    simp [hb2]
  have hdup : (dupErrors df).filter
      (fun e => e.error_code == "JURISDICTION_DRIFT" && e.ctx_sub_uuid == some u) = [] := by
    apply List.filter_eq_nil_iff.mpr
    intro e he
    simp only [dupErrors, List.mem_map] at he
    obtain ⟨cik, hcik, rfl⟩ := he
    simp [mkDupError_code, hb3]
  have hdr : (driftErrors df).filter
      (fun e => e.error_code == "JURISDICTION_DRIFT" && e.ctx_sub_uuid == some u)
      = [mkDriftError df u] := by
    unfold driftErrors
    rw [List.filter_map]
    have hcongr : (driftedUuids df).filter
        ((fun e => e.error_code == "JURISDICTION_DRIFT" && e.ctx_sub_uuid == some u)
          ∘ mkDriftError df)
        = (driftedUuids df).filter (fun v => v == u) := by
      apply List.filter_congr
      intro v hv
      rw [Bool.eq_iff_iff]
      simp [Function.comp, mkDriftError_code, mkDriftError_uuid]
    rw [hcongr,
      filter_beq_eq_singleton u _ (nodup_driftedUuids df) (mem_driftedUuids df u h),
      List.map_cons, List.map_nil]
  refine ⟨?_, mkDriftError_juris df u, ?_, rfl⟩
  · show ((missingJurErrors df ++ lowConfErrors df ++ driftErrors df ++ dupErrors df).filter
        (fun e => e.error_code == "JURISDICTION_DRIFT" && e.ctx_sub_uuid == some u)) = _
    rw [List.filter_append, List.filter_append, List.filter_append,
      hmj, hlc, hdr, hdup]
    simp
  · intro r hr hru
    unfold uniqueJuris
    rw [mem_dedupKeep]
    apply List.mem_map.mpr
    refine ⟨r, ?_, rfl⟩
    apply List.mem_filter.mpr
    exact ⟨hr, by simp [hru]⟩

/-- A subsidiary table in which key `u1` is observed with two jurisdictions. -/
def dfDrift : List SubsQcRow :=
  [ { sub_uuid := "u1", parent_ticker := "TICK", parent_cik10 := "0000000001",
      subsidiary_name := "ABC Holdings Ltd.", jurisdiction_iso3 := some "CHN",
      parse_confidence := none },
    { sub_uuid := "u1", parent_ticker := "TICK", parent_cik10 := "0000000001",
      subsidiary_name := "ABC Holdings Ltd.", jurisdiction_iso3 := some "HKG",
      parse_confidence := none } ]

/-- Witness for C6: with `u1` seen as China and Hong Kong, the check emits
exactly the one drift defect for `u1`. -/
theorem jurisdiction_drift_single_defect_witness :
    ((checkSubsidiariesMaster dfDrift).1.filter
        (fun e => e.error_code == "JURISDICTION_DRIFT" && e.ctx_sub_uuid == some "u1"))
      = [mkDriftError dfDrift "u1"] :=
  (jurisdiction_drift_single_defect dfDrift "u1" (by decide)).1

end MGCC
